import Mathlib

/-!
Shallow embedding of the real-time chat subsystem:
`app/services/chat.py` (chat service over the conversation/message store),
`app/core/ws_chat.py` (`ChatConnectionManager`, the in-memory connection
registry), and the WebSocket endpoint `websocket_chat` of
`app/controllers/chat.py`.

Timestamps (`datetime.utcnow()`) are modelled as a `Nat` clock value `now`
passed explicitly to the operations that read the wall clock.  The async
SQLAlchemy session is modelled by threading an explicit `ChatDB` value:
`db.commit()` corresponds to returning the new `ChatDB`; a Python `raise`
before `commit` corresponds to returning the unchanged `ChatDB` together
with an `Except.error` (nothing is persisted).  WebSocket handles are
modelled as `Nat` identifiers.
-/

/-- Row of `chat_conversaciones` (model `ChatConversation`):
`id_conversacion`, participants `id_admin` / `id_psicologo`, timestamps and
the denormalised last-message summary fields. -/
structure ChatConversation where
  id_conversacion : Nat
  id_admin : Nat
  id_psicologo : Nat
  created_at : Nat
  updated_at : Nat
  last_message_at : Option Nat
  last_message_text : Option String
deriving Repr, DecidableEq

/-- Row of `chat_mensajes` (model `ChatMessage`). `is_read` defaults to
`false` on insert. -/
structure ChatMessage where
  id_mensaje : Nat
  id_conversacion : Nat
  id_sender : Nat
  id_receiver : Nat
  texto : String
  created_at : Nat
  is_read : Bool
deriving Repr, DecidableEq

/-- The persistent store visible to the chat service: the two tables plus
the autoincrement counters that hand out primary keys on insert. -/
structure ChatDB where
  conversations : List ChatConversation
  messages : List ChatMessage
  nextConvId : Nat
  nextMsgId : Nat
deriving Repr, DecidableEq

/-- Embeds `get_conversation` (services/chat.py): `SELECT … WHERE id_conversacion
== conversation_id`, first row or `None`. -/
def get_conversation (db : ChatDB) (conversation_id : Nat) : Option ChatConversation :=
  db.conversations.find? (fun c => c.id_conversacion == conversation_id)

/-- Lookup of `services/chat.py:get_or_create_conversation`: `SELECT …
WHERE id_admin == admin_id AND id_psicologo == psicologo_id`. -/
def findConversationByPair (db : ChatDB) (admin_id psicologo_id : Nat) :
    Option ChatConversation :=
  db.conversations.find?
    (fun c => c.id_admin == admin_id && c.id_psicologo == psicologo_id)

/-- Embeds `get_or_create_conversation` (services/chat.py): return the existing
row for the directional pair, else insert a fresh one (`created_at` /
`updated_at` set to the insert time by the model defaults). -/
def get_or_create_conversation (db : ChatDB) (admin_id psicologo_id now : Nat) :
    ChatDB × ChatConversation :=
  match findConversationByPair db admin_id psicologo_id with
  | some conversation => (db, conversation)
  | none =>
    let conversation : ChatConversation :=
      { id_conversacion := db.nextConvId
        id_admin := admin_id
        id_psicologo := psicologo_id
        created_at := now
        updated_at := now
        last_message_at := none
        last_message_text := none }
    ({ db with
        conversations := db.conversations ++ [conversation]
        nextConvId := db.nextConvId + 1 },
     conversation)

/-- Membership of `user_id` in the participant pair of the conversation —
the test `create_message` applies to the sender and the receiver. -/
def inParticipants (conversation : ChatConversation) (user_id : Nat) : Bool :=
  user_id == conversation.id_admin || user_id == conversation.id_psicologo

/-- Embeds `is_user_in_conversation` (services/chat.py): `False` for an unknown
conversation, else membership of `user_id` among the two participants. -/
def is_user_in_conversation (db : ChatDB) (conversation_id user_id : Nat) : Bool :=
  match get_conversation db conversation_id with
  | none => false
  | some conversation =>
      conversation.id_admin == user_id || conversation.id_psicologo == user_id

/-- Embeds `create_message` (services/chat.py).  Raises (= returns `Except.error`
with the store untouched) when the conversation is unknown or when sender
or receiver is not a participant; otherwise inserts the message and, in
the same commit, updates the conversation's `updated_at`,
`last_message_at` and `last_message_text` (truncated to 500 characters,
`texto[:500] if len(texto) > 500 else texto`). -/
def create_message (db : ChatDB) (conversation_id sender_id receiver_id : Nat)
    (texto : String) (now : Nat) : ChatDB × Except String ChatMessage :=
  match get_conversation db conversation_id with
  | none => (db, Except.error "Conversation not found")
  | some conversation =>
    if !inParticipants conversation sender_id || !inParticipants conversation receiver_id then
      (db, Except.error "Sender or receiver not in conversation")
    else
      let message : ChatMessage :=
        { id_mensaje := db.nextMsgId
          id_conversacion := conversation_id
          id_sender := sender_id
          id_receiver := receiver_id
          texto := texto
          created_at := now
          is_read := false }
      let conversation' : ChatConversation :=
        { conversation with
            updated_at := now
            last_message_at := some now
            last_message_text :=
              some (if texto.length > 500 then texto.take 500 else texto) }
      ({ db with
          conversations := db.conversations.map
            (fun c => if c.id_conversacion == conversation_id then conversation' else c)
          messages := db.messages ++ [message]
          nextMsgId := db.nextMsgId + 1 },
       Except.ok message)

/-- The `WHERE` clause of `mark_messages_as_read`: same conversation,
addressed to `user_id`, still unread. -/
def unreadForUser (conversation_id user_id : Nat) (m : ChatMessage) : Bool :=
  m.id_conversacion == conversation_id && m.id_receiver == user_id && m.is_read == false

/-- Embeds `mark_messages_as_read` (services/chat.py): bulk
`UPDATE … SET is_read = true` over the rows matching `unreadForUser`;
returns the `rowcount` of matched rows.  No existence or participation
check is performed. -/
def mark_messages_as_read (db : ChatDB) (conversation_id user_id : Nat) :
    ChatDB × Nat :=
  ({ db with
      messages := db.messages.map
        (fun m => if unreadForUser conversation_id user_id m
                  then { m with is_read := true } else m) },
   (db.messages.filter (unreadForUser conversation_id user_id)).length)

/-- Embeds `ChatConnectionManager` (core/ws_chat.py): `active_connections` is a
dict from conversation id to the set of live WebSocket handles; modelled
as an association list (Python dict keys are unique; the list order is the
insertion order). -/
structure ChatConnectionManager where
  active_connections : List (Nat × Finset Nat)
deriving DecidableEq

/-- Embeds the dict lookup `self.active_connections.get(conversation_id)`. -/
def ChatConnectionManager.lookupRoom (m : ChatConnectionManager) (conversation_id : Nat) :
    Option (Finset Nat) :=
  (m.active_connections.find? (fun p => p.1 == conversation_id)).map (fun p => p.2)

/-- Embeds `connect` (core/ws_chat.py):
`self.active_connections.setdefault(conversation_id, set()).add(websocket)`. -/
def ChatConnectionManager.connect (m : ChatConnectionManager)
    (conversation_id ws : Nat) : ChatConnectionManager :=
  match m.lookupRoom conversation_id with
  | some _ =>
      ⟨m.active_connections.map
        (fun p => if p.1 == conversation_id then (p.1, insert ws p.2) else p)⟩
  | none => ⟨m.active_connections ++ [(conversation_id, {ws})]⟩

/-- Embeds `disconnect` (core/ws_chat.py): fetch the room; return if absent or
empty (`if not conns`); discard the handle if present; drop the dict entry
when the room became empty (`self.active_connections.pop`). -/
def ChatConnectionManager.disconnect (m : ChatConnectionManager)
    (conversation_id ws : Nat) : ChatConnectionManager :=
  match m.lookupRoom conversation_id with
  | none => m
  | some conns =>
    if conns = ∅ then m
    else
      let conns' := if ws ∈ conns then conns.erase ws else conns
      if conns' = ∅ then
        ⟨m.active_connections.filter (fun p => p.1 != conversation_id)⟩
      else
        ⟨m.active_connections.map
          (fun p => if p.1 == conversation_id then (p.1, conns') else p)⟩

/-- Embeds `broadcast` (core/ws_chat.py).  `sendOk ws` abstracts whether
`await ws.send_json(message)` succeeds or raises (the `try`/`except`
around each send).  Returns the list of attempted sends with their
outcomes — one per handle of the room, in room order — and the manager
after the failed handles have been pruned via `disconnect`. -/
def ChatConnectionManager.broadcast (m : ChatConnectionManager)
    (conversation_id : Nat) (sendOk : Nat → Bool) :
    List (Nat × Bool) × ChatConnectionManager :=
  let conns := (m.lookupRoom conversation_id).getD ∅
  let sends := (conns.sort (· ≤ ·)).map (fun ws => (ws, sendOk ws))
  let to_remove := conns.filter (fun ws => sendOk ws = false)
  (sends, (to_remove.sort (· ≤ ·)).foldl (fun acc ws => acc.disconnect conversation_id ws) m)

/-- A handle is registered for a conversation when it belongs to that
conversation's room. -/
def ChatConnectionManager.registered (m : ChatConnectionManager)
    (conversation_id ws : Nat) : Bool :=
  decide (ws ∈ (m.lookupRoom conversation_id).getD ∅)

/-- Outcome of the WebSocket handshake of `websocket_chat`
(controllers/chat.py): either closed with an application close code, or
streaming as the authenticated user. -/
inductive WsHandshake where
  | closed (code : Nat)
  | streaming (user_id : Nat)
deriving Repr, DecidableEq

/-- Handshake phase of `websocket_chat` (controllers/chat.py).
`tokenSub` abstracts `jwt.decode` + subject resolution: `none` for any
`JWTError` / `ValueError` / `TypeError` (bad signature, expired token,
missing `sub`, non-integer `sub`), `some user_id` for a verified token.
Authentication failure closes with code 4401 before any registry access;
an authenticated non-participant is closed with code 4403, also without
registration; a participant is registered via `chat_manager.connect`. -/
def websocket_chat (db : ChatDB) (m : ChatConnectionManager)
    (conversation_id : Nat) (tokenSub : Option Nat) (ws : Nat) :
    ChatConnectionManager × WsHandshake :=
  match tokenSub with
  | none => (m, WsHandshake.closed 4401)
  | some user_id =>
    if is_user_in_conversation db conversation_id user_id then
      (m.connect conversation_id ws, WsHandshake.streaming user_id)
    else
      (m, WsHandshake.closed 4403)

/-- How the receive loop of `websocket_chat` terminates: a transport
disconnect (`WebSocketDisconnect`) or any other exception
(e.g. cancellation on shutdown, a failed `send_json`). -/
inductive LoopExit where
  | wsDisconnect
  | otherException
deriving Repr, DecidableEq

/-- The exit path of `websocket_chat`'s receive loop: only the
`except WebSocketDisconnect` clause calls `chat_manager.disconnect`;
there is no `finally`, so any other exception leaves the registry as it
was. -/
def websocket_chat_exit (m : ChatConnectionManager)
    (conversation_id ws : Nat) : LoopExit → ChatConnectionManager
  | LoopExit.wsDisconnect => m.disconnect conversation_id ws
  | LoopExit.otherException => m

/-- The operations that mutate the connection registry, for stating
invariants over arbitrary operation sequences. -/
inductive RegistryOp where
  | connect (conversation_id ws : Nat)
  | disconnect (conversation_id ws : Nat)
  | broadcast (conversation_id : Nat) (sendOk : Nat → Bool)

/-- Apply one registry operation. -/
def applyRegistryOp (m : ChatConnectionManager) : RegistryOp → ChatConnectionManager
  | RegistryOp.connect cid ws => m.connect cid ws
  | RegistryOp.disconnect cid ws => m.disconnect cid ws
  | RegistryOp.broadcast cid sendOk => (m.broadcast cid sendOk).2

/-- The registry state after a sequence of operations, starting from the
freshly constructed manager (`self.active_connections = {}`). -/
def runRegistryOps (ops : List RegistryOp) : ChatConnectionManager :=
  ops.foldl applyRegistryOp ⟨[]⟩

/-- Store fixture: one conversation (id 10) between admin 1 and
psicologo 2, no messages yet. -/
def dbA : ChatDB :=
  { conversations := [⟨10, 1, 2, 0, 0, none, none⟩]
    messages := []
    nextConvId := 11
    nextMsgId := 100 }

/-- The conversation row of `dbA`. -/
def convA : ChatConversation := ⟨10, 1, 2, 0, 0, none, none⟩

/-- Store fixture: `dbA` after one message from 1 to 2, still unread. -/
def dbB : ChatDB :=
  { conversations := [⟨10, 1, 2, 0, 0, none, none⟩]
    messages := [⟨100, 10, 1, 2, "hola", 5, false⟩]
    nextConvId := 11
    nextMsgId := 101 }

/-- Registry fixture: room 1 holds handles 7 and 8, room 2 holds 9. -/
def mgrA : ChatConnectionManager := ⟨[(1, {7, 8}), (2, {9})]⟩

/-- Registry fixture: a fresh manager after `connect(1, 7)`. -/
def mgrB : ChatConnectionManager := ChatConnectionManager.connect ⟨[]⟩ 1 7

theorem find?_map_update {α : Type} (pr : α → Bool) (g : α → α)
    (hg : ∀ a, pr a = true → pr (g a) = true) :
    ∀ l : List α,
      (l.map (fun a => if pr a then g a else a)).find? pr = (l.find? pr).map g
  | [] => rfl
  | a :: l => by
    by_cases h : pr a = true
    · rw [List.map_cons, if_pos h, List.find?_cons_of_pos _ (hg a h),
        List.find?_cons_of_pos _ h, Option.map_some']
    · rw [List.map_cons, if_neg h, List.find?_cons_of_neg _ h,
        List.find?_cons_of_neg _ h, find?_map_update pr g hg l]

theorem find?_append_of_none {α : Type} {l₁ : List α} (l₂ : List α)
    {pr : α → Bool} (h : l₁.find? pr = none) :
    (l₁ ++ l₂).find? pr = l₂.find? pr := by
  rw [List.find?_append, h]; rfl

theorem map_id_of_fixed {α : Type} {l : List α} {f : α → α}
    (h : ∀ a ∈ l, f a = a) : l.map f = l := by
  rw [List.map_congr_left (g := id) h, List.map_id]

/-- Claim C5.  `get_or_create_conversation` is idempotent: a second call
with the same directional pair returns the very same store and the very
same conversation row (in particular the same id), performing a pure
lookup and inserting nothing. -/
theorem get_or_create_conversation_idempotent (db : ChatDB)
    (admin_id psicologo_id now₁ now₂ : Nat) :
    get_or_create_conversation
        (get_or_create_conversation db admin_id psicologo_id now₁).1
        admin_id psicologo_id now₂ =
      get_or_create_conversation db admin_id psicologo_id now₁ := by
  cases h : findConversationByPair db admin_id psicologo_id with
  | some conversation =>
      simp [get_or_create_conversation, h]
  | none =>
      have h' : db.conversations.find?
          (fun c => c.id_admin == admin_id && c.id_psicologo == psicologo_id) = none := h
      have h2 : findConversationByPair
          { db with
              conversations := db.conversations ++
                [{ id_conversacion := db.nextConvId
                   id_admin := admin_id
                   id_psicologo := psicologo_id
                   created_at := now₁
                   updated_at := now₁
                   last_message_at := none
                   last_message_text := none }]
              nextConvId := db.nextConvId + 1 }
          admin_id psicologo_id =
          some { id_conversacion := db.nextConvId
                 id_admin := admin_id
                 id_psicologo := psicologo_id
                 created_at := now₁
                 updated_at := now₁
                 last_message_at := none
                 last_message_text := none } := by
        show (db.conversations ++ _).find?
            (fun c => c.id_admin == admin_id && c.id_psicologo == psicologo_id) = _
        rw [find?_append_of_none _ h']
        simp [List.find?]
      simp only [get_or_create_conversation, h]
      simp [h2]

/-- When no message matches the `mark_messages_as_read` `WHERE` clause,
the bulk update matches zero rows and the store is unchanged. -/
theorem mark_noop_of_no_unread (db : ChatDB)
    (conversation_id user_id : Nat)
    (h : db.messages.filter (unreadForUser conversation_id user_id) = []) :
    mark_messages_as_read db conversation_id user_id = (db, 0) := by
  have hall : ∀ m ∈ db.messages, unreadForUser conversation_id user_id m = false := by
    intro m hm
    by_contra hb
    have hmem : m ∈ db.messages.filter (unreadForUser conversation_id user_id) :=
      List.mem_filter.2 ⟨hm, by simpa using hb⟩
    rw [h] at hmem
    exact (List.not_mem_nil m) hmem
  have hmap : db.messages.map
      (fun m => if unreadForUser conversation_id user_id m
                then { m with is_read := true } else m) = db.messages :=
    map_id_of_fixed (fun a ha => by rw [if_neg (by simp [hall a ha])])
  simp only [mark_messages_as_read, hmap, h, List.length_nil]

/-- Claim C10.  The service-layer `mark_messages_as_read` performs no
existence or participation check: for any conversation id (known or not)
and any user id, when no unread message of that conversation is addressed
to that user it returns 0 and leaves the store exactly as it was (and it
raises nothing: it is a total operation). -/
theorem mark_messages_as_read_no_checks (db : ChatDB)
    (conversation_id user_id : Nat)
    (h : db.messages.filter (unreadForUser conversation_id user_id) = []) :
    mark_messages_as_read db conversation_id user_id = (db, 0) :=
  mark_noop_of_no_unread db conversation_id user_id h

/-- Claim C10 witness: marking as read on store `dbB` with an unknown
conversation id 99 changes nothing and returns 0. -/
theorem mark_messages_as_read_no_checks_witness :
    dbB.messages.filter (unreadForUser 99 2) = [] ∧
    mark_messages_as_read dbB 99 2 = (dbB, 0) :=
  ⟨by decide, mark_messages_as_read_no_checks dbB 99 2 (by decide)⟩

/-- Claim C1 counterexample: on conversation 10 with participant set
{1, 2}, `create_message` accepts sender 1 and receiver 1 and inserts a
row, although `{sender_id, receiver_id} = {1}` is not the participant set:
the code only checks membership of each of the two ids, not set
equality. -/
theorem create_message_accepts_sender_eq_receiver :
    ¬ ({1, 1} : Finset Nat) = ({1, 2} : Finset Nat) ∧
    (create_message dbA 10 1 1 "hola" 5).2.isOk = true ∧
    (create_message dbA 10 1 1 "hola" 5).1.messages.length =
      dbA.messages.length + 1 :=
  ⟨by decide, by decide, by decide⟩

/-- Claim C1 as amended: on an existing conversation, `create_message`
rejects with the InvalidParticipant error exactly when sender or receiver
is not a member of the conversation's participant set; membership of each
id is required individually (set equality is not), and on rejection the
store is returned untouched. -/
theorem create_message_participant_membership (db : ChatDB)
    (conversation_id sender_id receiver_id : Nat) (texto : String) (now : Nat)
    (conversation : ChatConversation)
    (hconv : get_conversation db conversation_id = some conversation) :
    ((inParticipants conversation sender_id &&
        inParticipants conversation receiver_id) = false →
      create_message db conversation_id sender_id receiver_id texto now =
        (db, Except.error "Sender or receiver not in conversation")) ∧
    ((inParticipants conversation sender_id &&
        inParticipants conversation receiver_id) = true →
      (create_message db conversation_id sender_id receiver_id texto now).2.isOk
        = true) := by
  constructor
  · intro h
    have hcond : (!inParticipants conversation sender_id ||
        !inParticipants conversation receiver_id) = true := by
      revert h
      cases inParticipants conversation sender_id <;>
        cases inParticipants conversation receiver_id <;> simp
    simp only [create_message, hconv, hcond, if_true]
  · intro h
    have hcond : (!inParticipants conversation sender_id ||
        !inParticipants conversation receiver_id) = false := by
      revert h
      cases inParticipants conversation sender_id <;>
        cases inParticipants conversation receiver_id <;> simp
    simp [create_message, hconv, hcond, Except.isOk, Except.toBool]

/-- Claim C1 witness: on `dbA` (participants {1, 2}), sender 3 is
rejected with no insert, and the valid pair (1, 2) is accepted. -/
theorem create_message_participant_membership_witness :
    get_conversation dbA 10 = some convA ∧
    (inParticipants convA 3 && inParticipants convA 2) = false ∧
    create_message dbA 10 3 2 "hola" 5 =
      (dbA, Except.error "Sender or receiver not in conversation") ∧
    (create_message dbA 10 1 2 "hola" 5).2.isOk = true :=
  ⟨by decide, by decide,
   (create_message_participant_membership dbA 10 3 2 "hola" 5 convA (by decide)).1
     (by decide),
   (create_message_participant_membership dbA 10 1 2 "hola" 5 convA (by decide)).2
     (by decide)⟩

/-- Claim C3.  `create_message` either rejects and returns the store
untouched (no message row, no summary change), or commits, in the single
returned store, both the appended message row and the conversation's
updated summary fields. -/
theorem create_message_atomicity (db : ChatDB)
    (conversation_id sender_id receiver_id : Nat) (texto : String) (now : Nat) :
    ((create_message db conversation_id sender_id receiver_id texto now).2.isOk
        = false →
      (create_message db conversation_id sender_id receiver_id texto now).1 = db) ∧
    (∀ msg,
      (create_message db conversation_id sender_id receiver_id texto now).2 =
          Except.ok msg →
      ∃ conversation,
        get_conversation db conversation_id = some conversation ∧
        (create_message db conversation_id sender_id receiver_id texto now).1.messages
          = db.messages ++ [msg] ∧
        get_conversation
            (create_message db conversation_id sender_id receiver_id texto now).1
            conversation_id =
          some { conversation with
                   updated_at := now
                   last_message_at := some now
                   last_message_text :=
                     some (if texto.length > 500 then texto.take 500 else texto) }) := by
  cases hconv : get_conversation db conversation_id with
  | none =>
      constructor
      · intro _
        simp [create_message, hconv]
      · intro msg hmsg
        simp [create_message, hconv] at hmsg
  | some conversation =>
      cases hcond : (!inParticipants conversation sender_id ||
          !inParticipants conversation receiver_id) with
      | true =>
          constructor
          · intro _
            simp [create_message, hconv, hcond]
          · intro msg hmsg
            simp [create_message, hconv, hcond] at hmsg
      | false =>
          have hconv' : db.conversations.find?
              (fun c => c.id_conversacion == conversation_id) = some conversation :=
            hconv
          have hpr := List.find?_some hconv'
          constructor
          · intro hfalse
            simp [create_message, hconv, hcond, Except.isOk, Except.toBool] at hfalse
          · intro msg hmsg
            simp only [create_message, hconv, hcond, Bool.false_eq_true,
              if_false] at hmsg ⊢
            refine ⟨conversation, rfl, ?_, ?_⟩
            · rw [← Except.ok.inj hmsg]
            · show (db.conversations.map _).find? _ = _
              rw [find?_map_update (fun c => c.id_conversacion == conversation_id)
                (fun _ => { conversation with
                    updated_at := now
                    last_message_at := some now
                    last_message_text :=
                      some (if texto.length > 500 then texto.take 500 else texto) })
                (fun a _ => hpr) db.conversations]
              rw [show get_conversation db conversation_id =
                  db.conversations.find?
                    (fun c => c.id_conversacion == conversation_id) from rfl] at hconv
              rw [hconv, Option.map_some']

/-- Claim C3 witness: on `dbA`, the unknown conversation 99 is rejected
with the store untouched, and a valid send on conversation 10 commits the
message row together with the summary update. -/
theorem create_message_atomicity_witness :
    (create_message dbA 99 1 2 "hola" 5).1 = dbA ∧
    (∃ conversation,
      get_conversation dbA 10 = some conversation ∧
      (create_message dbA 10 1 2 "hola" 5).1.messages =
        dbA.messages ++ [⟨100, 10, 1, 2, "hola", 5, false⟩] ∧
      get_conversation (create_message dbA 10 1 2 "hola" 5).1 10 =
        some { conversation with
                 updated_at := 5
                 last_message_at := some 5
                 last_message_text :=
                   some (if "hola".length > 500 then "hola".take 500 else "hola") }) :=
  ⟨(create_message_atomicity dbA 99 1 2 "hola" 5).1 rfl,
   (create_message_atomicity dbA 10 1 2 "hola" 5).2
     ⟨100, 10, 1, 2, "hola", 5, false⟩ rfl⟩

/-- Claim C7.  After a successful `create_message(C, s, r, texto)` at a
clock instant `now` later than `C.updated_at` (the wall clock is assumed
strictly monotone across the two store writes), the conversation's
`last_message_text` equals `texto` when its length is at most 500
characters and the first 500 characters otherwise, and `updated_at`
strictly advances. -/
theorem create_message_summary_fields (db : ChatDB)
    (conversation_id sender_id receiver_id : Nat) (texto : String) (now : Nat)
    (conversation : ChatConversation)
    (hconv : get_conversation db conversation_id = some conversation)
    (hclock : conversation.updated_at < now)
    (hok : (create_message db conversation_id sender_id receiver_id texto now).2.isOk
      = true) :
    ∃ conversation',
      get_conversation
          (create_message db conversation_id sender_id receiver_id texto now).1
          conversation_id = some conversation' ∧
      (texto.length ≤ 500 → conversation'.last_message_text = some texto) ∧
      (500 < texto.length → conversation'.last_message_text = some (texto.take 500)) ∧
      conversation.updated_at < conversation'.updated_at := by
  cases hcond : (!inParticipants conversation sender_id ||
      !inParticipants conversation receiver_id) with
  | true => simp [create_message, hconv, hcond, Except.isOk, Except.toBool] at hok
  | false =>
    have hconv' : db.conversations.find?
        (fun c => c.id_conversacion == conversation_id) = some conversation := hconv
    have hpr := List.find?_some hconv'
    refine ⟨{ conversation with
                updated_at := now
                last_message_at := some now
                last_message_text :=
                  some (if texto.length > 500 then texto.take 500 else texto) },
            ?_, ?_, ?_, hclock⟩
    · simp only [create_message, hconv, hcond, Bool.false_eq_true, if_false]
      show (db.conversations.map _).find? _ = _
      rw [find?_map_update (fun c => c.id_conversacion == conversation_id)
        (fun _ => { conversation with
            updated_at := now
            last_message_at := some now
            last_message_text :=
              some (if texto.length > 500 then texto.take 500 else texto) })
        (fun a _ => hpr) db.conversations]
      rw [hconv', Option.map_some']
    · intro hle
      simp only [if_neg (by omega : ¬ texto.length > 500)]
    · intro hgt
      simp only [if_pos (by omega : texto.length > 500)]

/-- Claim C7 witness: sending "hola" on conversation 10 of `dbA` at
clock 5 leaves `last_message_text = "hola"` and advances `updated_at`
from 0. -/
theorem create_message_summary_fields_witness :
    get_conversation dbA 10 = some convA ∧ convA.updated_at < 5 ∧
    (∃ conversation',
      get_conversation (create_message dbA 10 1 2 "hola" 5).1 10 =
        some conversation' ∧
      ("hola".length ≤ 500 → conversation'.last_message_text = some "hola") ∧
      (500 < "hola".length →
        conversation'.last_message_text = some ("hola".take 500)) ∧
      convA.updated_at < conversation'.updated_at) :=
  ⟨by decide, by decide,
   create_message_summary_fields dbA 10 1 2 "hola" 5 convA (by decide) (by decide)
     (by decide)⟩

theorem unreadForUser_after_mark (conversation_id user_id : Nat) (m : ChatMessage) :
    unreadForUser conversation_id user_id
      (if unreadForUser conversation_id user_id m
       then { m with is_read := true } else m) = false := by
  by_cases h : unreadForUser conversation_id user_id m = true
  · rw [if_pos h]
    simp [unreadForUser]
  · rw [if_neg h]
    simpa using h

theorem countP_changed_rows (conversation_id user_id : Nat) :
    ∀ l : List ChatMessage,
      ((l.zip (l.map (fun m => if unreadForUser conversation_id user_id m
          then { m with is_read := true } else m))).countP
          (fun q => decide (q.1 ≠ q.2))) =
        (l.filter (unreadForUser conversation_id user_id)).length
  | [] => rfl
  | m :: l => by
    rw [List.map_cons, List.zip_cons_cons, List.countP_cons, List.filter_cons]
    by_cases h : unreadForUser conversation_id user_id m = true
    · have hread : m.is_read = false := by
        have h2 := h
        simp [unreadForUser] at h2
        exact h2.2
      have hne : m ≠ { m with is_read := true } := by
        intro he
        have h3 : m.is_read = true := congrArg ChatMessage.is_read he
        rw [hread] at h3
        exact Bool.false_ne_true h3
      rw [if_pos h, if_pos h, countP_changed_rows conversation_id user_id l]
      simp [hne]
    · rw [if_neg h, if_neg h, countP_changed_rows conversation_id user_id l]
      simp

/-- Claim C6.  `mark_messages_as_read` transitions `is_read` to true on
exactly the unread messages of the conversation addressed to the user
(every other row — and the conversation table — is untouched), returns the
number of rows it actually changed, and is idempotent: the immediately
repeated call returns 0 and changes nothing. -/
theorem mark_messages_as_read_spec (db : ChatDB) (conversation_id user_id : Nat) :
    (mark_messages_as_read db conversation_id user_id).1.messages.length =
      db.messages.length ∧
    (mark_messages_as_read db conversation_id user_id).1.conversations =
      db.conversations ∧
    (∀ i (h1 : i < db.messages.length)
        (h2 : i < (mark_messages_as_read db conversation_id user_id).1.messages.length),
      (unreadForUser conversation_id user_id (db.messages.get ⟨i, h1⟩) = true →
        (mark_messages_as_read db conversation_id user_id).1.messages.get ⟨i, h2⟩ =
          { db.messages.get ⟨i, h1⟩ with is_read := true }) ∧
      (unreadForUser conversation_id user_id (db.messages.get ⟨i, h1⟩) = false →
        (mark_messages_as_read db conversation_id user_id).1.messages.get ⟨i, h2⟩ =
          db.messages.get ⟨i, h1⟩)) ∧
    (mark_messages_as_read db conversation_id user_id).2 =
      ((db.messages.zip
          (mark_messages_as_read db conversation_id user_id).1.messages).countP
        (fun q => decide (q.1 ≠ q.2))) ∧
    mark_messages_as_read (mark_messages_as_read db conversation_id user_id).1
        conversation_id user_id =
      ((mark_messages_as_read db conversation_id user_id).1, 0) := by
  refine ⟨by simp [mark_messages_as_read], rfl, ?_, ?_, ?_⟩
  · intro i h1 h2
    constructor
    · intro h
      show (db.messages.map _).get ⟨i, _⟩ = _
      simp only [List.get_eq_getElem, List.getElem_map]
      rw [show db.messages[i] = db.messages.get ⟨i, h1⟩ from rfl, if_pos h]
    · intro h
      have hn : ¬ unreadForUser conversation_id user_id
          (db.messages.get ⟨i, h1⟩) = true := by rw [Bool.not_eq_true]; exact h
      show (db.messages.map _).get ⟨i, _⟩ = _
      simp only [List.get_eq_getElem, List.getElem_map]
      rw [show db.messages[i] = db.messages.get ⟨i, h1⟩ from rfl, if_neg hn]
  · exact (countP_changed_rows conversation_id user_id db.messages).symm
  · apply mark_noop_of_no_unread
    rw [List.filter_eq_nil_iff]
    intro x hx
    simp only [mark_messages_as_read, List.mem_map] at hx
    obtain ⟨a, _, rfl⟩ := hx
    simp [unreadForUser_after_mark]

/-- Claim C6 witness: on `dbB` (one unread message for user 2 in
conversation 10) the call reports 1 changed row and the repeated call
returns 0 changing nothing. -/
theorem mark_messages_as_read_spec_witness :
    (0 : Nat) < dbB.messages.length ∧
    unreadForUser 10 2 (dbB.messages.get ⟨0, by decide⟩) = true ∧
    (mark_messages_as_read dbB 10 2).1.messages.get ⟨0, by decide⟩ =
      { dbB.messages.get ⟨0, by decide⟩ with is_read := true } ∧
    (mark_messages_as_read dbB 10 2).2 =
      ((dbB.messages.zip (mark_messages_as_read dbB 10 2).1.messages).countP
        (fun q => decide (q.1 ≠ q.2))) ∧
    mark_messages_as_read (mark_messages_as_read dbB 10 2).1 10 2 =
      ((mark_messages_as_read dbB 10 2).1, 0) :=
  ⟨by decide, by decide,
   ((mark_messages_as_read_spec dbB 10 2).2.2.1 0 (by decide) (by decide)).1
     (by decide),
   (mark_messages_as_read_spec dbB 10 2).2.2.2.1,
   (mark_messages_as_read_spec dbB 10 2).2.2.2.2⟩

theorem registered_disconnect (m : ChatConnectionManager) (conversation_id ws x : Nat) :
    (m.disconnect conversation_id ws).registered conversation_id x = true ↔
      (m.registered conversation_id x = true ∧ x ≠ ws) := by
  cases h : m.lookupRoom conversation_id with
  | none =>
      simp [ChatConnectionManager.disconnect, ChatConnectionManager.registered, h]
  | some conns =>
      by_cases hc : conns = ∅
      · simp [ChatConnectionManager.disconnect, ChatConnectionManager.registered, h, hc]
      · obtain ⟨p0, hp0, hp02⟩ : ∃ p0,
            m.active_connections.find? (fun p => p.1 == conversation_id) = some p0 ∧
              p0.2 = conns := by
          simpa [ChatConnectionManager.lookupRoom, Option.map_eq_some'] using h
        by_cases hw : ws ∈ conns
        · by_cases hc2 : conns.erase ws = ∅
          · have hnone : (m.active_connections.filter
                (fun p => p.1 != conversation_id)).find?
                  (fun p => p.1 == conversation_id) = none := by
              rw [List.find?_eq_none]
              intro q hq
              have h2 := (List.mem_filter.mp hq).2
              simpa using h2
            simp only [ChatConnectionManager.disconnect, h, if_neg hc, if_pos hw,
              if_pos hc2]
            simp only [ChatConnectionManager.registered,
              ChatConnectionManager.lookupRoom, hnone, h, hp0]
            simp only [Option.map_none', Option.getD]
            constructor
            · intro hfalse
              simp at hfalse
            · rintro ⟨hx, hxw⟩
              have hx2 : x ∈ conns := by simpa [hp02] using hx
              have : x ∈ conns.erase ws := Finset.mem_erase.mpr ⟨hxw, hx2⟩
              rw [hc2] at this
              exact absurd this (Finset.not_mem_empty x)
          · have hlook : (ChatConnectionManager.mk (m.active_connections.map
                (fun p => if p.1 == conversation_id
                          then (p.1, conns.erase ws) else p))).lookupRoom
                conversation_id = some (conns.erase ws) := by
              simp only [ChatConnectionManager.lookupRoom]
              rw [find?_map_update (fun p => p.1 == conversation_id)
                (fun p => (p.1, conns.erase ws)) (fun a ha => ha)
                m.active_connections]
              rw [hp0, Option.map_some', Option.map_some']
            simp only [ChatConnectionManager.disconnect, h, if_neg hc, if_pos hw,
              if_neg hc2]
            simp only [ChatConnectionManager.registered, hlook, h, Option.getD_some,
              decide_eq_true_eq, Finset.mem_erase, hp02]
            tauto
        · have hlook : (ChatConnectionManager.mk (m.active_connections.map
              (fun p => if p.1 == conversation_id then (p.1, conns) else p))).lookupRoom
              conversation_id = some conns := by
            simp only [ChatConnectionManager.lookupRoom]
            rw [find?_map_update (fun p => p.1 == conversation_id)
              (fun p => (p.1, conns)) (fun a ha => ha) m.active_connections]
            rw [hp0, Option.map_some', Option.map_some']
          simp only [ChatConnectionManager.disconnect, h, if_neg hc, if_neg hw,
            if_neg hc]
          simp only [ChatConnectionManager.registered, hlook, h, Option.getD_some,
            decide_eq_true_eq]
          constructor
          · intro hx
            exact ⟨hx, fun he => hw (he ▸ hx)⟩
          · tauto

theorem registered_connect (m : ChatConnectionManager) (conversation_id ws x : Nat) :
    (m.connect conversation_id ws).registered conversation_id x = true ↔
      (x = ws ∨ m.registered conversation_id x = true) := by
  cases h : m.lookupRoom conversation_id with
  | none =>
      have hnone : m.active_connections.find?
          (fun p => p.1 == conversation_id) = none := by
        simpa [ChatConnectionManager.lookupRoom, Option.map_eq_none'] using h
      simp only [ChatConnectionManager.connect, h]
      simp only [ChatConnectionManager.registered, ChatConnectionManager.lookupRoom,
        decide_eq_true_eq]
      rw [find?_append_of_none _ hnone]
      simp [hnone]
  | some conns =>
      obtain ⟨p0, hp0, hp02⟩ : ∃ p0,
          m.active_connections.find? (fun p => p.1 == conversation_id) = some p0 ∧
            p0.2 = conns := by
        simpa [ChatConnectionManager.lookupRoom, Option.map_eq_some'] using h
      simp only [ChatConnectionManager.connect, h]
      simp only [ChatConnectionManager.registered, ChatConnectionManager.lookupRoom,
        decide_eq_true_eq]
      rw [find?_map_update (fun p => p.1 == conversation_id)
        (fun p => (p.1, insert ws p.2)) (fun a ha => ha) m.active_connections]
      rw [hp0, Option.map_some', Option.map_some']
      simp [hp0, hp02, Finset.mem_insert]

theorem registered_foldl_disconnect_mono (conversation_id x : Nat) :
    ∀ (l : List Nat) (m : ChatConnectionManager),
      ((l.foldl (fun acc ws => acc.disconnect conversation_id ws) m).registered
          conversation_id x = true) →
        m.registered conversation_id x = true
  | [], m => fun h => h
  | w :: l, m => fun h => by
    have h2 := registered_foldl_disconnect_mono conversation_id x l
      (m.disconnect conversation_id w) h
    exact ((registered_disconnect m conversation_id w x).mp h2).1

theorem registered_foldl_disconnect_removes (conversation_id x : Nat) :
    ∀ (l : List Nat) (m : ChatConnectionManager), x ∈ l →
      ((l.foldl (fun acc ws => acc.disconnect conversation_id ws) m).registered
          conversation_id x = false)
  | [], _, hx => absurd hx (List.not_mem_nil x)
  | w :: l, m, hx => by
    by_cases hxw : x = w
    · rw [List.foldl_cons]
      cases hreg : (l.foldl (fun acc ws => acc.disconnect conversation_id ws)
          (m.disconnect conversation_id w)).registered conversation_id x with
      | false => rfl
      | true =>
          have h2 := registered_foldl_disconnect_mono conversation_id x l
            (m.disconnect conversation_id w) hreg
          have h3 := ((registered_disconnect m conversation_id w x).mp h2).2
          exact absurd hxw h3
    · have hxl : x ∈ l := by
        cases List.mem_cons.mp hx with
        | inl h => exact absurd h hxw
        | inr h => exact h
      rw [List.foldl_cons]
      exact registered_foldl_disconnect_removes conversation_id x l
        (m.disconnect conversation_id w) hxl

/-- Claim C4.  `broadcast` attempts one send per handle registered in the
target room (each with its own outcome, so one failure stops neither the
other sends nor the caller — the operation is total) and to no handle of
any other room; every handle whose send failed is no longer registered
when `broadcast` returns. -/
theorem broadcast_delivery_and_pruning (m : ChatConnectionManager)
    (conversation_id : Nat) (sendOk : Nat → Bool) :
    (∀ ws b, (ws, b) ∈ (m.broadcast conversation_id sendOk).1 ↔
      (m.registered conversation_id ws = true ∧ b = sendOk ws)) ∧
    (∀ ws, m.registered conversation_id ws = true → sendOk ws = false →
      (m.broadcast conversation_id sendOk).2.registered conversation_id ws
        = false) := by
  constructor
  · intro ws b
    simp only [ChatConnectionManager.broadcast, List.mem_map,
      ChatConnectionManager.registered, decide_eq_true_eq]
    constructor
    · rintro ⟨x, hx, hxe⟩
      injection hxe with h1 h2
      subst h1
      exact ⟨(Finset.mem_sort _).mp hx, h2.symm⟩
    · rintro ⟨hws, rfl⟩
      exact ⟨ws, (Finset.mem_sort _).mpr hws, rfl⟩
  · intro ws hreg hfail
    simp only [ChatConnectionManager.broadcast]
    apply registered_foldl_disconnect_removes
    rw [Finset.mem_sort]
    exact Finset.mem_filter.mpr
      ⟨by simpa [ChatConnectionManager.registered] using hreg, hfail⟩

/-- Claim C4 witness: broadcasting on room 1 of `mgrA` (handles {7, 8})
with sends succeeding only for handle 7: handle 7 receives the payload,
handle 8's failed send is attempted too and 8 is pruned from the room. -/
theorem broadcast_delivery_and_pruning_witness :
    ((7, true) ∈ (mgrA.broadcast 1 (fun ws => ws == 7)).1) ∧
    ((8, false) ∈ (mgrA.broadcast 1 (fun ws => ws == 7)).1) ∧
    mgrA.registered 1 8 = true ∧
    (mgrA.broadcast 1 (fun ws => ws == 7)).2.registered 1 8 = false :=
  ⟨((broadcast_delivery_and_pruning mgrA 1 (fun ws => ws == 7)).1 7 true).mpr
      ⟨by decide, by decide⟩,
   ((broadcast_delivery_and_pruning mgrA 1 (fun ws => ws == 7)).1 8 false).mpr
      ⟨by decide, by decide⟩,
   by decide,
   (broadcast_delivery_and_pruning mgrA 1 (fun ws => ws == 7)).2 8 (by decide)
     (by decide)⟩

/-- Claim C2 (code behaviour at the failing input): for a handle in the
Streaming state (`mgrB` = fresh manager after `connect(1, 7)`), a receive
loop terminated by any exception other than `WebSocketDisconnect` leaves
the handle registered — only the `WebSocketDisconnect` path deregisters
it.  This contradicts the claim that every termination deregisters the
handle. -/
theorem websocket_chat_exit_leak :
    (websocket_chat_exit mgrB 1 7 LoopExit.otherException).registered 1 7 = true ∧
    (websocket_chat_exit mgrB 1 7 LoopExit.wsDisconnect).registered 1 7 = false :=
  ⟨by decide, by decide⟩

theorem roomsNonempty_connect (m : ChatConnectionManager) (conversation_id ws : Nat)
    (h : ∀ q ∈ m.active_connections, q.2 ≠ (∅ : Finset Nat)) :
    ∀ q ∈ (m.connect conversation_id ws).active_connections,
      q.2 ≠ (∅ : Finset Nat) := by
  unfold ChatConnectionManager.connect
  cases hl : m.lookupRoom conversation_id with
  | some s =>
      intro q hq
      simp only [List.mem_map] at hq
      obtain ⟨a, ha, rfl⟩ := hq
      by_cases hp : (a.1 == conversation_id) = true
      · rw [if_pos hp]
        exact Finset.insert_ne_empty ws a.2
      · rw [if_neg hp]
        exact h a ha
  | none =>
      intro q hq
      rcases List.mem_append.mp hq with h1 | h1
      · exact h q h1
      · have h2 : q = (conversation_id, {ws}) := by simpa using h1
        rw [h2]
        exact Finset.singleton_ne_empty ws

theorem roomsNonempty_disconnect (m : ChatConnectionManager)
    (conversation_id ws : Nat)
    (h : ∀ q ∈ m.active_connections, q.2 ≠ (∅ : Finset Nat)) :
    ∀ q ∈ (m.disconnect conversation_id ws).active_connections,
      q.2 ≠ (∅ : Finset Nat) := by
  cases hl : m.lookupRoom conversation_id with
  | none =>
      simp only [ChatConnectionManager.disconnect, hl]
      exact h
  | some conns =>
      simp only [ChatConnectionManager.disconnect, hl]
      by_cases hc : conns = ∅
      · rw [if_pos hc]
        exact h
      · rw [if_neg hc]
        by_cases hc2 : (if ws ∈ conns then conns.erase ws else conns) = ∅
        · rw [if_pos hc2]
          intro q hq
          exact h q (List.mem_filter.mp hq).1
        · rw [if_neg hc2]
          intro q hq
          simp only [List.mem_map] at hq
          obtain ⟨a, ha, rfl⟩ := hq
          by_cases hp : (a.1 == conversation_id) = true
          · rw [if_pos hp]
            exact hc2
          · rw [if_neg hp]
            exact h a ha

theorem roomsNonempty_foldl_disconnect (conversation_id : Nat) :
    ∀ (l : List Nat) (m : ChatConnectionManager),
      (∀ q ∈ m.active_connections, q.2 ≠ (∅ : Finset Nat)) →
      ∀ q ∈ (l.foldl (fun acc ws => acc.disconnect conversation_id ws)
          m).active_connections, q.2 ≠ (∅ : Finset Nat)
  | [], _ => fun h => h
  | w :: l, m => fun h =>
      roomsNonempty_foldl_disconnect conversation_id l
        (m.disconnect conversation_id w)
        (roomsNonempty_disconnect m conversation_id w h)

/-- Claim C9.  After any sequence of connect / disconnect / broadcast
operations from the fresh registry, every conversation id present as a
key of `active_connections` maps to a non-empty room: `disconnect` drops
an entry when its last handle leaves. -/
theorem registry_rooms_nonempty (ops : List RegistryOp) :
    ∀ q ∈ (runRegistryOps ops).active_connections, (q.2 : Finset Nat).Nonempty := by
  have main : ∀ (ops : List RegistryOp) (m : ChatConnectionManager),
      (∀ q ∈ m.active_connections, q.2 ≠ (∅ : Finset Nat)) →
      ∀ q ∈ (ops.foldl applyRegistryOp m).active_connections,
        q.2 ≠ (∅ : Finset Nat) := by
    intro ops
    induction ops with
    | nil => intro m h; exact h
    | cons op ops ih =>
        intro m h
        apply ih
        cases op with
        | connect cid ws => exact roomsNonempty_connect m cid ws h
        | disconnect cid ws => exact roomsNonempty_disconnect m cid ws h
        | broadcast cid sendOk => exact roomsNonempty_foldl_disconnect cid _ m h
  intro q hq
  exact Finset.nonempty_iff_ne_empty.mpr
    (main ops ⟨[]⟩ (fun q hq => absurd hq (List.not_mem_nil q)) q hq)

/-- Claim C9 witness: after a single connect, the only room is {7}, which
is non-empty. -/
theorem registry_rooms_nonempty_witness :
    (1, ({7} : Finset Nat)) ∈
      (runRegistryOps [RegistryOp.connect 1 7]).active_connections ∧
    ({7} : Finset Nat).Nonempty :=
  ⟨by decide, registry_rooms_nonempty [RegistryOp.connect 1 7] (1, {7}) (by decide)⟩

/-- Claim C8.  The WebSocket handshake closes with code 4401 (leaving the
registry untouched, so the handle is never registered) when token
verification fails for any reason, and with the distinct code 4403 (again
with the registry untouched) when the verified user is not a participant
of the target conversation. -/
theorem websocket_chat_close_codes (db : ChatDB) (m : ChatConnectionManager)
    (conversation_id ws : Nat) :
    websocket_chat db m conversation_id none ws = (m, WsHandshake.closed 4401) ∧
    (∀ user_id, is_user_in_conversation db conversation_id user_id = false →
      websocket_chat db m conversation_id (some user_id) ws =
        (m, WsHandshake.closed 4403)) ∧
    (4401 : Nat) ≠ 4403 := by
  refine ⟨rfl, ?_, by decide⟩
  intro user_id h
  simp [websocket_chat, h]

/-- Claim C8 witness: on `dbA` (conversation 10 between users 1 and 2),
a failed token closes with 4401 and the non-participant user 3 closes
with 4403, the registry `mgrA` unchanged in both cases. -/
theorem websocket_chat_close_codes_witness :
    is_user_in_conversation dbA 10 3 = false ∧
    websocket_chat dbA mgrA 10 (some 3) 7 = (mgrA, WsHandshake.closed 4403) ∧
    websocket_chat dbA mgrA 10 none 7 = (mgrA, WsHandshake.closed 4401) :=
  ⟨by decide,
   (websocket_chat_close_codes dbA mgrA 10 7).2.1 3 (by decide),
   (websocket_chat_close_codes dbA mgrA 10 7).1⟩
